import Mathlib

/-!
Shallow embedding of `src/persepolis/scripts/progress.py` (the progress
window of the Persepolis/Ghermez download manager).

The Python class `ProgressWindow` is an event-driven controller: each
handler reads widget state and the stored `self.status` / `self.gid`,
possibly calls the aria2 RPC layer (`download.*`), writes to the two
databases (`temp_db.updateSingleTable`, `persepolis_db.updateAddLinkTable`),
sends notifications and spawns a `ShutDownThread`.

We model the mutable attributes and widget properties the handlers touch as
a record `PWState`, the externally observable actions as a trace
`List Effect`, and the answers coming from the outside world (aria2 RPC
return values, password dialog results, `sudoExit -S` exit statuses) as an
environment record `Env`.  Each Python method becomes a pure Lean function
from state and environment to the new state plus the emitted trace, in
source order.
-/

/-- Externally observable actions of the progress window, in the order the
Python code performs them. -/
inductive Effect where
  /-- `download.downloadUnpause(gid)` -/
  | downloadUnpause (gid : String)
  /-- `download.downloadPause(gid)` -/
  | downloadPause (gid : String)
  /-- `download.downloadStop(gid, parent)` -/
  | downloadStop (gid : String)
  /-- `download.aria2Version()` availability probe -/
  | aria2Version
  /-- `parent.aria2Disconnected()` -/
  | aria2Disconnected
  /-- `notifySend(title, ...)` -/
  | notify (title : String)
  /-- `download.limitSpeed(gid, value)` -/
  | limitSpeed (gid : String) (value : String)
  /-- `parent.temp_db.updateSingleTable({'gid': gid, 'shutdown': v})` -/
  | updateSingleTable (gid : String) (shutdown : String)
  /-- `parent.persepolis_db.updateAddLinkTable([{'gid': gid, 'limit_value': v}])` -/
  | updateAddLinkTable (gid : String) (limit_value : String)
  /-- `ShutDownThread(parent, gid, password)` appended to `parent.threadPool`
  and started (`password = none` on Windows) -/
  | startThread (gid : String) (password : Option String)
  /-- `button.setIcon(QIcon(path))` in `changeIcon` -/
  | setIcon (button : String) (path : String)
  /-- `persepolis_setting.setValue(key, ...)` in `closeEvent` -/
  | settingsSetValue (key : String)
  /-- `persepolis_setting.sync()` -/
  | settingsSync
  /-- `self.hide()` -/
  | hideWindow
  /-- `self.close()` -/
  | closeWindow
  deriving Repr, DecidableEq

/-- The mutable attributes of a `ProgressWindow` and the widget properties
its handlers read or write. -/
structure PWState where
  /-- `self.gid` -/
  gid : String
  /-- `self.status`: `None` in the constructor, later a status string set by
  the main window (`'paused'`, `'downloading'`, `'scheduled'`, ...) -/
  status : Option String
  /-- `self.download_progressBar` value -/
  download_progressBar : Nat
  /-- `self.limit_checkBox.isChecked()` -/
  limit_checkBox : Bool
  /-- `self.limit_frame.isEnabled()` -/
  limit_frame_enabled : Bool
  /-- `self.limit_pushButton.isEnabled()` -/
  limit_pushButton_enabled : Bool
  /-- `self.limit_comboBox.currentText()` (`'KiB/s'` or `'MiB/s'`) -/
  limit_comboBox_text : String
  /-- `self.limit_comboBox.currentIndex()` -/
  limit_comboBox_index : Nat
  /-- `str(self.limit_spinBox.value())`: the decimal rendering of the
  spinbox value, which is only ever read back through `str(...)` -/
  limit_spinBox_value : String
  /-- `self.after_checkBox.isChecked()` -/
  after_checkBox : Bool
  /-- `self.after_frame.isEnabled()` -/
  after_frame_enabled : Bool
  /-- `self.after_pushButton.isEnabled()` -/
  after_pushButton_enabled : Bool
  /-- `self.after_comboBox.currentIndex()` -/
  after_comboBox_index : Nat
  deriving Repr, DecidableEq

/-- Answers supplied by the world outside the progress window: aria2 RPC
return values, the password dialog and the `sudoExit -S` password check. -/
structure Env where
  /-- truthiness of the value returned by `download.downloadUnpause` -/
  unpauseAnswer : Bool
  /-- truthiness of the value returned by `download.downloadPause` -/
  pauseAnswer : Bool
  /-- value returned by `download.downloadStop`: `none` is Python `None`,
  `some s` is the string `s` (aria2 errors surface as the string `'None'`) -/
  stopAnswer : Option String
  /-- value returned by `download.aria2Version()` -/
  aria2VersionAnswer : String
  /-- successive results of `QInputDialog.getText`: the typed password and
  the `ok` flag, one entry per time the dialog returns -/
  prompts : List (String × Bool)
  /-- exit status of `sudoExit -S echo hello` fed a given password -/
  sudoExit : String → Nat

/-- Constructor body of `ProgressWindow.__init__` restricted to the state it
mutates: `ui` is the widget state built by `ProgressWindow_Ui.__init__`,
`gid` the constructor argument and `stored_limit` the string
`str(add_link_dictionary['limit_value'])` fetched from the add-link table
for this gid. -/
def ProgressWindow.init (ui : PWState) (gid : String) (stored_limit : String) : PWState :=
  let base := { ui with
    gid := gid
    status := (none : Option String)
    download_progressBar := 0
    limit_frame_enabled := false
    after_frame_enabled := false }
  if stored_limit ≠ "0" then
    { base with
      limit_spinBox_value := stored_limit.dropRight 1
      after_comboBox_index := if stored_limit.takeRight 1 = "K" then 0 else 1
      limit_checkBox := true }
  else
    base

/-- `ProgressWindow.resumePushButtonPressed` -/
def resumePushButtonPressed (st : PWState) (env : Env) : PWState × List Effect :=
  if st.status = some "paused" then
    if env.unpauseAnswer = false then
      if env.aria2VersionAnswer = "did not respond" then
        (st, [Effect.downloadUnpause st.gid, Effect.aria2Version,
              Effect.aria2Disconnected, Effect.notify "Aria2 disconnected!"])
      else
        (st, [Effect.downloadUnpause st.gid, Effect.aria2Version,
              Effect.notify "Aria2 did not respond!"])
    else
      (st, [Effect.downloadUnpause st.gid])
  else
    (st, [])

/-- `ProgressWindow.pausePushButtonPressed` -/
def pausePushButtonPressed (st : PWState) (env : Env) : PWState × List Effect :=
  if st.status = some "downloading" then
    if env.pauseAnswer = false then
      if env.aria2VersionAnswer = "did not respond" then
        (st, [Effect.downloadPause st.gid, Effect.aria2Version,
              Effect.aria2Disconnected, Effect.downloadStop st.gid,
              Effect.notify "Aria2 disconnected!"])
      else
        (st, [Effect.downloadPause st.gid, Effect.aria2Version,
              Effect.notify "Aria2 did not respond!"])
    else
      (st, [Effect.downloadPause st.gid])
  else
    (st, [])

/-- `ProgressWindow.stopPushButtonPressed` -/
def stopPushButtonPressed (st : PWState) (env : Env) : PWState × List Effect :=
  if env.stopAnswer = some "None" then
    if env.aria2VersionAnswer = "did not respond" then
      (st, [Effect.updateSingleTable st.gid "canceled", Effect.downloadStop st.gid,
            Effect.aria2Version, Effect.aria2Disconnected,
            Effect.notify "Aria2 disconnected!"])
    else
      (st, [Effect.updateSingleTable st.gid "canceled", Effect.downloadStop st.gid,
            Effect.aria2Version])
  else
    (st, [Effect.updateSingleTable st.gid "canceled", Effect.downloadStop st.gid])

/-- `ProgressWindow.limitCheckBoxToggled` (the checkbox itself was already
toggled by Qt before the slot runs, so `st.limit_checkBox` is the new
value). -/
def limitCheckBoxToggled (st : PWState) : PWState × List Effect :=
  if st.limit_checkBox then
    ({ st with limit_frame_enabled := true, limit_pushButton_enabled := true }, [])
  else
    if st.status ≠ some "scheduled" then
      ({ st with limit_frame_enabled := false }, [Effect.limitSpeed st.gid "0"])
    else
      ({ st with limit_frame_enabled := false }, [Effect.updateAddLinkTable st.gid "0"])

/-- `ProgressWindow.limitComboBoxChanged` -/
def limitComboBoxChanged (st : PWState) : PWState × List Effect :=
  ({ st with limit_pushButton_enabled := true }, [])

/-- `ProgressWindow.afterComboBoxChanged` -/
def afterComboBoxChanged (st : PWState) : PWState × List Effect :=
  ({ st with after_pushButton_enabled := true }, [])

/-- `ProgressWindow.afterCheckBoxToggled` -/
def afterCheckBoxToggled (st : PWState) : PWState × List Effect :=
  if st.after_checkBox then
    ({ st with after_frame_enabled := true }, [])
  else
    ({ st with after_frame_enabled := false },
     [Effect.updateSingleTable st.gid "canceled"])

/-- The `while answer != 0` retry loop of `afterPushButtonPressed`:
`passwd` is the password last fed to `sudoExit -S`, `answer` the exit status of
that check, and the list holds the results of the remaining dialog prompts.
Returns `some (ok, passwd)` when the loop exits (`ok = false` exactly when
the user cancelled a retry prompt) and `none` when the supplied prompt
results are exhausted with the loop still running. -/
def sudoRetryLoop (sudoExit : String → Nat) : String → Nat → List (String × Bool) →
    Option (Bool × String)
  | passwd, answer, prompts =>
    if answer = 0 then
      some (true, passwd)
    else
      match prompts with
      | [] => none
      | (p, ok) :: rest =>
        if ok then sudoRetryLoop sudoExit p (sudoExit p) rest
        else some (false, passwd)

/-- The whole password acquisition of `afterPushButtonPressed` on
non-Windows platforms: first `QInputDialog.getText`, then the `sudoExit -S`
check and the retry loop.  `some (ok, passwd)` mirrors the Python variables
`ok` and `passwd` after the loop. -/
def passwordOutcome (sudoExit : String → Nat) : List (String × Bool) → Option (Bool × String)
  | [] => none
  | (passwd, ok) :: rest =>
    if ok then sudoRetryLoop sudoExit passwd (sudoExit passwd) rest
    else some (false, passwd)

/-- `ProgressWindow.afterPushButtonPressed`; `osWindows` is
`os_type == OS.WINDOWS`.  The result is `none` when the environment's
prompt list runs out while the handler is still waiting on a dialog. -/
def afterPushButtonPressed (osWindows : Bool) (st : PWState) (env : Env) :
    Option (PWState × List Effect) :=
  let st0 := { st with after_pushButton_enabled := false }
  if osWindows then
    some (st0, [Effect.startThread st0.gid none])
  else
    match passwordOutcome env.sudoExit env.prompts with
    | none => none
    | some (true, passwd) =>
        some (st0, [Effect.startThread st0.gid (some passwd)])
    | some (false, _) =>
        some ({ st0 with after_checkBox := false }, [])

/-- `ProgressWindow.limitPushButtonPressed` -/
def limitPushButtonPressed (st : PWState) : PWState × List Effect :=
  let st0 := { st with limit_pushButton_enabled := false }
  let limit_value :=
    if st.limit_comboBox_text = "KiB/s" then st.limit_spinBox_value ++ "K"
    else st.limit_spinBox_value ++ "M"
  if st.status ≠ some "scheduled" then
    (st0, [Effect.limitSpeed st0.gid limit_value])
  else
    (st0, [Effect.updateAddLinkTable st0.gid limit_value])

/-- `ProgressWindow.keyPressEvent`: closes the window on the Escape key. -/
def keyPressEvent (st : PWState) (keyIsEscape : Bool) : PWState × List Effect :=
  if keyIsEscape then (st, [Effect.closeWindow]) else (st, [])

/-- `ProgressWindow.closeEvent` -/
def closeEvent (st : PWState) : PWState × List Effect :=
  (st, [Effect.settingsSetValue "ProgressWindow/size",
        Effect.settingsSetValue "ProgressWindow/position",
        Effect.settingsSync, Effect.hideWindow])

/-- `ProgressWindow.changeIcon` -/
def changeIcon (st : PWState) (icons : String) : PWState × List Effect :=
  let path := ":/" ++ icons ++ "/"
  (st, [Effect.setIcon "resume" (path ++ "play"),
        Effect.setIcon "pause" (path ++ "pause"),
        Effect.setIcon "stop" (path ++ "stop")])

/-- Whether an effect is the creation and start of a `ShutDownThread`. -/
def Effect.isStartThread : Effect → Bool
  | .startThread _ _ => true
  | _ => false

/-- The gid an effect is addressed to, when it takes one. -/
def Effect.gidTarget : Effect → Option String
  | .downloadUnpause g => some g
  | .downloadPause g => some g
  | .downloadStop g => some g
  | .limitSpeed g _ => some g
  | .updateSingleTable g _ => some g
  | .updateAddLinkTable g _ => some g
  | .startThread g _ => some g
  | _ => none

/-- Whether an effect is one of the two database writes. -/
def Effect.isDbWrite : Effect → Bool
  | .updateSingleTable _ _ => true
  | .updateAddLinkTable _ _ => true
  | _ => false

/-- Whether an effect is an aria2 RPC request. -/
def Effect.isRpc : Effect → Bool
  | .downloadUnpause _ => true
  | .downloadPause _ => true
  | .downloadStop _ => true
  | .aria2Version => true
  | .limitSpeed _ _ => true
  | _ => false

/-- A concrete widget state used to instantiate the universally quantified
theorems below. -/
def stA : PWState :=
  { gid := "gid0123456789abcdef"
    status := some "paused"
    download_progressBar := 40
    limit_checkBox := true
    limit_frame_enabled := true
    limit_pushButton_enabled := true
    limit_comboBox_text := "KiB/s"
    limit_comboBox_index := 0
    limit_spinBox_value := "10.0"
    after_checkBox := false
    after_frame_enabled := false
    after_pushButton_enabled := true
    after_comboBox_index := 0 }

/-- A concrete environment used to instantiate the universally quantified
theorems below. -/
def envA : Env :=
  { unpauseAnswer := false
    pauseAnswer := false
    stopAnswer := some "None"
    aria2VersionAnswer := "did not respond"
    prompts := [("hunter2", true), ("hunter3", true), ("", false)]
    sudoExit := fun p => if p = "hunter3" then 0 else 1 }

/-- C1: `resumePushButtonPressed` calls `download.downloadUnpause(self.gid)`
exactly when `self.status == 'paused'` and otherwise performs no RPC and
changes no state; `pausePushButtonPressed` calls
`download.downloadPause(self.gid)` exactly when
`self.status == 'downloading'` and otherwise is a no-op. -/
theorem resume_pause_status_gate (st : PWState) (env : Env) :
    (Effect.downloadUnpause st.gid ∈ (resumePushButtonPressed st env).2 ↔
       st.status = some "paused")
    ∧ (st.status ≠ some "paused" → resumePushButtonPressed st env = (st, []))
    ∧ (Effect.downloadPause st.gid ∈ (pausePushButtonPressed st env).2 ↔
       st.status = some "downloading")
    ∧ (st.status ≠ some "downloading" → pausePushButtonPressed st env = (st, [])) := by
  unfold resumePushButtonPressed pausePushButtonPressed
  refine ⟨?_, ?_, ?_, ?_⟩ <;> split_ifs <;> simp_all

/-- C1 witness at a concrete state and environment. -/
theorem resume_pause_status_gate_witness :
    (Effect.downloadUnpause stA.gid ∈ (resumePushButtonPressed stA envA).2 ↔
       stA.status = some "paused")
    ∧ (stA.status ≠ some "paused" → resumePushButtonPressed stA envA = (stA, []))
    ∧ (Effect.downloadPause stA.gid ∈ (pausePushButtonPressed stA envA).2 ↔
       stA.status = some "downloading")
    ∧ (stA.status ≠ some "downloading" → pausePushButtonPressed stA envA = (stA, [])) :=
  resume_pause_status_gate stA envA

/-- C2: for every status and every aria2 answer, `stopPushButtonPressed`
first writes `{'gid': gid, 'shutdown': 'canceled'}` to the temp database
and only then calls `download.downloadStop(gid)`: those are the first two
actions of its trace. -/
theorem stop_db_write_before_rpc (st : PWState) (env : Env) :
    (stopPushButtonPressed st env).2.take 2 =
      [Effect.updateSingleTable st.gid "canceled", Effect.downloadStop st.gid] := by
  unfold stopPushButtonPressed
  split_ifs <;> rfl

/-- C2 witness at a concrete state and environment. -/
theorem stop_db_write_before_rpc_witness :
    (stopPushButtonPressed stA envA).2.take 2 =
      [Effect.updateSingleTable stA.gid "canceled", Effect.downloadStop stA.gid] :=
  stop_db_write_before_rpc stA envA

/-- C3: `limitPushButtonPressed` builds the limit value from the spinbox
value with suffix `K` when the unit combobox reads `KiB/s` and `M`
otherwise, then emits exactly one action: an aria2 `limitSpeed` RPC when
the status is not `scheduled`, a write to the add-link table when it is.
Unchecking `limit_checkBox` follows the same status split with value `0`. -/
theorem limit_value_build_and_split (st : PWState) :
    (st.limit_comboBox_text = "KiB/s" →
       (limitPushButtonPressed st).2 =
         [if st.status = some "scheduled"
          then Effect.updateAddLinkTable st.gid (st.limit_spinBox_value ++ "K")
          else Effect.limitSpeed st.gid (st.limit_spinBox_value ++ "K")])
    ∧ (st.limit_comboBox_text ≠ "KiB/s" →
       (limitPushButtonPressed st).2 =
         [if st.status = some "scheduled"
          then Effect.updateAddLinkTable st.gid (st.limit_spinBox_value ++ "M")
          else Effect.limitSpeed st.gid (st.limit_spinBox_value ++ "M")])
    ∧ (st.limit_checkBox = false →
       (limitCheckBoxToggled st).2 =
         [if st.status = some "scheduled"
          then Effect.updateAddLinkTable st.gid "0"
          else Effect.limitSpeed st.gid "0"]) := by
  unfold limitPushButtonPressed limitCheckBoxToggled
  refine ⟨?_, ?_, ?_⟩ <;> intro h <;> split_ifs <;> simp_all

/-- C3 witness at a concrete state. -/
theorem limit_value_build_and_split_witness :
    (stA.limit_comboBox_text = "KiB/s" →
       (limitPushButtonPressed stA).2 =
         [if stA.status = some "scheduled"
          then Effect.updateAddLinkTable stA.gid (stA.limit_spinBox_value ++ "K")
          else Effect.limitSpeed stA.gid (stA.limit_spinBox_value ++ "K")])
    ∧ (stA.limit_comboBox_text ≠ "KiB/s" →
       (limitPushButtonPressed stA).2 =
         [if stA.status = some "scheduled"
          then Effect.updateAddLinkTable stA.gid (stA.limit_spinBox_value ++ "M")
          else Effect.limitSpeed stA.gid (stA.limit_spinBox_value ++ "M")])
    ∧ (stA.limit_checkBox = false →
       (limitCheckBoxToggled stA).2 =
         [if stA.status = some "scheduled"
          then Effect.updateAddLinkTable stA.gid "0"
          else Effect.limitSpeed stA.gid "0"]) :=
  limit_value_build_and_split stA

/-- C8: unchecking `after_checkBox` disables `after_frame` and writes
`{'gid': gid, 'shutdown': 'canceled'}` to the temp database; checking it
only enables `after_frame` and writes nothing. -/
theorem after_checkbox_toggle_spec (st : PWState) :
    (st.after_checkBox = false →
       afterCheckBoxToggled st =
         ({ st with after_frame_enabled := false },
          [Effect.updateSingleTable st.gid "canceled"]))
    ∧ (st.after_checkBox = true →
       afterCheckBoxToggled st = ({ st with after_frame_enabled := true }, [])) := by
  unfold afterCheckBoxToggled
  constructor <;> intro h <;> simp [h]

/-- C8 witness at a concrete state. -/
theorem after_checkbox_toggle_spec_witness :
    (stA.after_checkBox = false →
       afterCheckBoxToggled stA =
         ({ stA with after_frame_enabled := false },
          [Effect.updateSingleTable stA.gid "canceled"]))
    ∧ (stA.after_checkBox = true →
       afterCheckBoxToggled stA = ({ stA with after_frame_enabled := true }, [])) :=
  after_checkbox_toggle_spec stA

/-- C9: when the stored `limit_value` is not `'0'`, the constructor writes
the numeric prefix of the stored string into `limit_spinBox`, checks
`limit_checkBox`, and uses the trailing unit character to select an index
of `after_comboBox` (0 for unit `K`, 1 otherwise), while leaving the
`limit_comboBox` unit selector untouched. -/
theorem init_limit_restore (ui : PWState) (g stored_limit : String)
    (h : stored_limit ≠ "0") :
    (ProgressWindow.init ui g stored_limit).limit_spinBox_value = stored_limit.dropRight 1
    ∧ (ProgressWindow.init ui g stored_limit).limit_checkBox = true
    ∧ (ProgressWindow.init ui g stored_limit).after_comboBox_index =
        (if stored_limit.takeRight 1 = "K" then 0 else 1)
    ∧ (ProgressWindow.init ui g stored_limit).limit_comboBox_index = ui.limit_comboBox_index
    ∧ (ProgressWindow.init ui g stored_limit).limit_comboBox_text = ui.limit_comboBox_text := by
  unfold ProgressWindow.init
  simp [h]

/-- C9 witness: restoring the stored limit `'500K'`. -/
theorem init_limit_restore_witness :
    ("500K" : String) ≠ "0"
    ∧ ((ProgressWindow.init stA "g1" "500K").limit_spinBox_value = ("500K" : String).dropRight 1
      ∧ (ProgressWindow.init stA "g1" "500K").limit_checkBox = true
      ∧ (ProgressWindow.init stA "g1" "500K").after_comboBox_index =
          (if ("500K" : String).takeRight 1 = "K" then 0 else 1)
      ∧ (ProgressWindow.init stA "g1" "500K").limit_comboBox_index = stA.limit_comboBox_index
      ∧ (ProgressWindow.init stA "g1" "500K").limit_comboBox_text = stA.limit_comboBox_text) :=
  ⟨by decide, init_limit_restore stA "g1" "500K" (by decide)⟩

/-- C6: after a falsy `downloadUnpause`/`downloadPause` answer the handler
probes `aria2Version` and calls `aria2Disconnected` iff the probe returns
`'did not respond'`; in that disconnected branch `pausePushButtonPressed`
additionally calls `downloadStop` while `resumePushButtonPressed` never
does; and `stopPushButtonPressed` probes availability exactly when
`downloadStop` returned the string `'None'` (so never on Python `None`). -/
theorem error_handling_paths (st : PWState) (env : Env) :
    (st.status = some "paused" → env.unpauseAnswer = false →
       (Effect.aria2Version ∈ (resumePushButtonPressed st env).2
        ∧ (Effect.aria2Disconnected ∈ (resumePushButtonPressed st env).2 ↔
             env.aria2VersionAnswer = "did not respond")))
    ∧ (st.status = some "paused" → env.unpauseAnswer = true →
       Effect.aria2Version ∉ (resumePushButtonPressed st env).2)
    ∧ (st.status = some "downloading" → env.pauseAnswer = false →
       (Effect.aria2Version ∈ (pausePushButtonPressed st env).2
        ∧ (Effect.aria2Disconnected ∈ (pausePushButtonPressed st env).2 ↔
             env.aria2VersionAnswer = "did not respond")
        ∧ (Effect.downloadStop st.gid ∈ (pausePushButtonPressed st env).2 ↔
             env.aria2VersionAnswer = "did not respond")))
    ∧ (st.status = some "downloading" → env.pauseAnswer = true →
       Effect.aria2Version ∉ (pausePushButtonPressed st env).2)
    ∧ (∀ g, Effect.downloadStop g ∉ (resumePushButtonPressed st env).2)
    ∧ (Effect.aria2Version ∈ (stopPushButtonPressed st env).2 ↔
         env.stopAnswer = some "None") := by
  unfold resumePushButtonPressed pausePushButtonPressed stopPushButtonPressed
  refine ⟨?_, ?_, ?_, ?_, ?_, ?_⟩ <;> split_ifs <;> simp_all

/-- C6 witness at a concrete state and environment. -/
theorem error_handling_paths_witness :
    (stA.status = some "paused" → envA.unpauseAnswer = false →
       (Effect.aria2Version ∈ (resumePushButtonPressed stA envA).2
        ∧ (Effect.aria2Disconnected ∈ (resumePushButtonPressed stA envA).2 ↔
             envA.aria2VersionAnswer = "did not respond")))
    ∧ (stA.status = some "paused" → envA.unpauseAnswer = true →
       Effect.aria2Version ∉ (resumePushButtonPressed stA envA).2)
    ∧ (stA.status = some "downloading" → envA.pauseAnswer = false →
       (Effect.aria2Version ∈ (pausePushButtonPressed stA envA).2
        ∧ (Effect.aria2Disconnected ∈ (pausePushButtonPressed stA envA).2 ↔
             envA.aria2VersionAnswer = "did not respond")
        ∧ (Effect.downloadStop stA.gid ∈ (pausePushButtonPressed stA envA).2 ↔
             envA.aria2VersionAnswer = "did not respond")))
    ∧ (stA.status = some "downloading" → envA.pauseAnswer = true →
       Effect.aria2Version ∉ (pausePushButtonPressed stA envA).2)
    ∧ (∀ g, Effect.downloadStop g ∉ (resumePushButtonPressed stA envA).2)
    ∧ (Effect.aria2Version ∈ (stopPushButtonPressed stA envA).2 ↔
         envA.stopAnswer = some "None") :=
  error_handling_paths stA envA

/-- The retry loop exits within the supplied prompt results iff the current
check already succeeded or some later prompt is cancelled or passes the
sudo check. -/
theorem sudoRetryLoop_isSome_iff (f : String → Nat) :
    ∀ (prompts : List (String × Bool)) (passwd : String) (answer : Nat),
      (sudoRetryLoop f passwd answer prompts).isSome ↔
        (answer = 0 ∨ ∃ pr ∈ prompts, pr.2 = false ∨ f pr.1 = 0) := by
  intro prompts
  induction prompts with
  | nil =>
    intro passwd answer
    by_cases h : answer = 0 <;> simp [sudoRetryLoop, h]
  | cons hd tl ih =>
    intro passwd answer
    obtain ⟨p, ok⟩ := hd
    by_cases h : answer = 0
    · simp [sudoRetryLoop, h]
    · cases ok
      · simp [sudoRetryLoop, h]
      · simp [sudoRetryLoop, h, ih p (f p)]

/-- When the retry loop exits with `ok` still true, the password it hands
back passed the sudo check, provided the incoming answer already came from
checking the incoming password. -/
theorem sudoRetryLoop_true_exit (f : String → Nat) :
    ∀ (prompts : List (String × Bool)) (passwd pw : String) (answer : Nat),
      sudoRetryLoop f passwd answer prompts = some (true, pw) →
      ((answer = 0 ∧ pw = passwd) ∨ f pw = 0) := by
  intro prompts
  induction prompts with
  | nil =>
    intro passwd pw answer h
    by_cases ha : answer = 0 <;> simp [sudoRetryLoop, ha] at h
    exact Or.inl ⟨ha, h.symm⟩
  | cons hd tl ih =>
    intro passwd pw answer h
    obtain ⟨p, ok⟩ := hd
    by_cases ha : answer = 0
    · simp [sudoRetryLoop, ha] at h
      exact Or.inl ⟨ha, h.symm⟩
    · cases ok
      · simp [sudoRetryLoop, ha] at h
      · simp [sudoRetryLoop, ha] at h
        rcases ih p pw (f p) h with ⟨h0, rfl⟩ | h1
        · exact Or.inr h0
        · exact Or.inr h1

/-- A password handed back with `ok = true` by the whole acquisition passed
the sudo check. -/
theorem passwordOutcome_true_exit (f : String → Nat)
    (prompts : List (String × Bool)) (pw : String)
    (h : passwordOutcome f prompts = some (true, pw)) : f pw = 0 := by
  match prompts with
  | [] => simp [passwordOutcome] at h
  | (p, ok) :: rest =>
    cases ok
    · simp [passwordOutcome] at h
    · simp [passwordOutcome] at h
      rcases sudoRetryLoop_true_exit f rest p pw (f p) h with ⟨h0, rfl⟩ | h1
      · exact h0
      · exact h1

/-- The whole password acquisition finishes within the supplied prompt
results iff some prompt is cancelled or passes the sudo check. -/
theorem passwordOutcome_isSome_iff (f : String → Nat)
    (prompts : List (String × Bool)) :
    (passwordOutcome f prompts).isSome ↔
      ∃ pr ∈ prompts, pr.2 = false ∨ f pr.1 = 0 := by
  match prompts with
  | [] => simp [passwordOutcome]
  | (p, ok) :: rest =>
    cases ok
    · simp [passwordOutcome]
    · simp [passwordOutcome, sudoRetryLoop_isSome_iff f rest p (f p)]

/-- C10: `afterPushButtonPressed` returns a result exactly when, on
Windows, always, and otherwise when some dialog answer cancels or passes
the sudo check — i.e. its retry loop exits exactly when the sudo check
returns exit status 0 or the dialog returns cancelled. -/
theorem after_terminates_iff (os : Bool) (st : PWState) (env : Env) :
    (afterPushButtonPressed os st env).isSome ↔
      (os = true ∨ ∃ pr ∈ env.prompts, pr.2 = false ∨ env.sudoExit pr.1 = 0) := by
  cases os
  · simp only [afterPushButtonPressed, Bool.false_eq_true, if_false, false_or]
    rw [← passwordOutcome_isSome_iff env.sudoExit env.prompts]
    rcases h : passwordOutcome env.sudoExit env.prompts with _ | ⟨ok, pw⟩
    · simp
    · cases ok <;> simp
  · simp [afterPushButtonPressed]

/-- C10 witness at a concrete environment whose second prompt passes the
sudo check. -/
theorem after_terminates_iff_witness :
    (afterPushButtonPressed false stA envA).isSome ↔
      (false = true ∨ ∃ pr ∈ envA.prompts, pr.2 = false ∨ envA.sudoExit pr.1 = 0) :=
  after_terminates_iff false stA envA

/-- C7: on non-Windows platforms a `ShutDownThread` is started only for a
password the `sudo -S` check accepted (exit status 0), and whenever the
user cancels the first prompt or a retry prompt the handler spawns nothing
and unchecks `after_checkBox`. -/
theorem after_sudo_gate (st : PWState) (env : Env) :
    (∀ out passwd, afterPushButtonPressed false st env = some out →
       Effect.startThread st.gid (some passwd) ∈ out.2 → env.sudoExit passwd = 0)
    ∧ (∀ passwd, passwordOutcome env.sudoExit env.prompts = some (false, passwd) →
       afterPushButtonPressed false st env =
         some ({ st with after_pushButton_enabled := false, after_checkBox := false },
               [])) := by
  constructor
  · intro out passwd hout hmem
    simp only [afterPushButtonPressed, Bool.false_eq_true, if_false] at hout
    rcases h : passwordOutcome env.sudoExit env.prompts with _ | ⟨ok, pw⟩ <;>
      rw [h] at hout
    · simp at hout
    · cases ok
      · simp at hout
        subst hout
        simp at hmem
      · simp at hout
        subst hout
        simp at hmem
        rw [hmem]
        exact passwordOutcome_true_exit env.sudoExit env.prompts pw h
  · intro passwd h
    simp only [afterPushButtonPressed, Bool.false_eq_true, if_false]
    rw [h]

/-- C7 witness at a concrete environment cancelling the first prompt. -/
theorem after_sudo_gate_witness :
    (∀ out passwd, afterPushButtonPressed false stA envA = some out →
       Effect.startThread stA.gid (some passwd) ∈ out.2 → envA.sudoExit passwd = 0)
    ∧ (∀ passwd, passwordOutcome envA.sudoExit envA.prompts = some (false, passwd) →
       afterPushButtonPressed false stA envA =
         some ({ stA with after_pushButton_enabled := false, after_checkBox := false },
               [])) :=
  after_sudo_gate stA envA

/-- Any result of `afterPushButtonPressed` keeps the gid and only targets
that gid. -/
theorem afterPushButtonPressed_gid (os : Bool) (st : PWState) (env : Env) :
    ∀ out, afterPushButtonPressed os st env = some out →
      out.1.gid = st.gid
      ∧ ∀ e ∈ out.2, ∀ g0, Effect.gidTarget e = some g0 → g0 = st.gid := by
  intro out hout
  cases os
  · simp only [afterPushButtonPressed, Bool.false_eq_true, if_false] at hout
    rcases h : passwordOutcome env.sudoExit env.prompts with _ | ⟨ok, pw⟩ <;>
      rw [h] at hout
    · simp at hout
    · cases ok <;> simp at hout <;> subst hout <;> simp [Effect.gidTarget]
  · simp only [afterPushButtonPressed, if_true] at hout
    rw [Option.some_inj] at hout
    subst hout
    simp [Effect.gidTarget]

/-- C4: `afterPushButtonPressed` creates and starts at most one
`ShutDownThread` per invocation — exactly one on Windows, and off Windows
exactly one when the password acquisition ends validated and zero when it
ends cancelled — and no other handler of the window ever spawns a
thread. -/
theorem after_thread_spawn_count (os esc : Bool) (st : PWState) (env : Env)
    (icons : String) :
    (afterPushButtonPressed true st env =
       some ({ st with after_pushButton_enabled := false },
             [Effect.startThread st.gid none]))
    ∧ (∀ out, afterPushButtonPressed os st env = some out →
         out.2.countP Effect.isStartThread ≤ 1)
    ∧ (∀ passwd, passwordOutcome env.sudoExit env.prompts = some (true, passwd) →
         afterPushButtonPressed false st env =
           some ({ st with after_pushButton_enabled := false },
                 [Effect.startThread st.gid (some passwd)]))
    ∧ (∀ passwd, passwordOutcome env.sudoExit env.prompts = some (false, passwd) →
         ∀ out, afterPushButtonPressed false st env = some out →
           out.2.countP Effect.isStartThread = 0)
    ∧ (resumePushButtonPressed st env).2.countP Effect.isStartThread = 0
    ∧ (pausePushButtonPressed st env).2.countP Effect.isStartThread = 0
    ∧ (stopPushButtonPressed st env).2.countP Effect.isStartThread = 0
    ∧ (limitCheckBoxToggled st).2.countP Effect.isStartThread = 0
    ∧ (limitComboBoxChanged st).2.countP Effect.isStartThread = 0
    ∧ (afterComboBoxChanged st).2.countP Effect.isStartThread = 0
    ∧ (afterCheckBoxToggled st).2.countP Effect.isStartThread = 0
    ∧ (limitPushButtonPressed st).2.countP Effect.isStartThread = 0
    ∧ (keyPressEvent st esc).2.countP Effect.isStartThread = 0
    ∧ (closeEvent st).2.countP Effect.isStartThread = 0
    ∧ (changeIcon st icons).2.countP Effect.isStartThread = 0 := by
  refine ⟨?_, ?_, ?_, ?_, ?_, ?_, ?_, ?_, ?_, ?_, ?_, ?_, ?_, ?_, ?_⟩
  · simp [afterPushButtonPressed]
  · intro out hout
    cases os
    · simp only [afterPushButtonPressed, Bool.false_eq_true, if_false] at hout
      rcases h : passwordOutcome env.sudoExit env.prompts with _ | ⟨ok, pw⟩ <;>
        rw [h] at hout
      · simp at hout
      · cases ok <;> simp at hout <;> subst hout <;>
          simp [Effect.isStartThread, List.countP, List.countP.go]
    · simp only [afterPushButtonPressed, if_true] at hout
      rw [Option.some_inj] at hout
      subst hout
      simp [Effect.isStartThread, List.countP, List.countP.go]
  · intro passwd h
    simp only [afterPushButtonPressed, Bool.false_eq_true, if_false]
    rw [h]
  · intro passwd h out hout
    simp only [afterPushButtonPressed, Bool.false_eq_true, if_false] at hout
    rw [h] at hout
    simp at hout
    subst hout
    simp [List.countP, List.countP.go]
  · unfold resumePushButtonPressed
    split_ifs <;> simp [Effect.isStartThread, List.countP, List.countP.go]
  · unfold pausePushButtonPressed
    split_ifs <;> simp [Effect.isStartThread, List.countP, List.countP.go]
  · unfold stopPushButtonPressed
    split_ifs <;> simp [Effect.isStartThread, List.countP, List.countP.go]
  · unfold limitCheckBoxToggled
    split_ifs <;> simp [Effect.isStartThread, List.countP, List.countP.go]
  · simp [limitComboBoxChanged, List.countP, List.countP.go]
  · simp [afterComboBoxChanged, List.countP, List.countP.go]
  · unfold afterCheckBoxToggled
    split_ifs <;> simp [Effect.isStartThread, List.countP, List.countP.go]
  · unfold limitPushButtonPressed
    split_ifs <;> simp [Effect.isStartThread, List.countP, List.countP.go]
  · unfold keyPressEvent
    split_ifs <;> simp [Effect.isStartThread, List.countP, List.countP.go]
  · simp [closeEvent, Effect.isStartThread, List.countP, List.countP.go]
  · simp [changeIcon, Effect.isStartThread, List.countP, List.countP.go]

/-- C4 witness at a concrete state and environment. -/
theorem after_thread_spawn_count_witness :
    (afterPushButtonPressed true stA envA =
       some ({ stA with after_pushButton_enabled := false },
             [Effect.startThread stA.gid none]))
    ∧ (∀ out, afterPushButtonPressed false stA envA = some out →
         out.2.countP Effect.isStartThread ≤ 1)
    ∧ (∀ passwd, passwordOutcome envA.sudoExit envA.prompts = some (true, passwd) →
         afterPushButtonPressed false stA envA =
           some ({ stA with after_pushButton_enabled := false },
                 [Effect.startThread stA.gid (some passwd)]))
    ∧ (∀ passwd, passwordOutcome envA.sudoExit envA.prompts = some (false, passwd) →
         ∀ out, afterPushButtonPressed false stA envA = some out →
           out.2.countP Effect.isStartThread = 0)
    ∧ (resumePushButtonPressed stA envA).2.countP Effect.isStartThread = 0
    ∧ (pausePushButtonPressed stA envA).2.countP Effect.isStartThread = 0
    ∧ (stopPushButtonPressed stA envA).2.countP Effect.isStartThread = 0
    ∧ (limitCheckBoxToggled stA).2.countP Effect.isStartThread = 0
    ∧ (limitComboBoxChanged stA).2.countP Effect.isStartThread = 0
    ∧ (afterComboBoxChanged stA).2.countP Effect.isStartThread = 0
    ∧ (afterCheckBoxToggled stA).2.countP Effect.isStartThread = 0
    ∧ (limitPushButtonPressed stA).2.countP Effect.isStartThread = 0
    ∧ (keyPressEvent stA false).2.countP Effect.isStartThread = 0
    ∧ (closeEvent stA).2.countP Effect.isStartThread = 0
    ∧ (changeIcon stA "papirus").2.countP Effect.isStartThread = 0 :=
  after_thread_spawn_count false false stA envA "papirus"

/-- C5: the constructor stores its `gid` argument in `self.gid`, no handler
ever reassigns it, and every gid-addressed action (aria2 RPC, database
write, thread spawn) emitted by any handler targets exactly `self.gid`. -/
theorem single_gid_invariant (ui st : PWState) (env : Env)
    (g lim icons : String) (esc : Bool) :
    (ProgressWindow.init ui g lim).gid = g
    ∧ (resumePushButtonPressed st env).1.gid = st.gid
    ∧ (∀ e ∈ (resumePushButtonPressed st env).2, ∀ g0,
         Effect.gidTarget e = some g0 → g0 = st.gid)
    ∧ (pausePushButtonPressed st env).1.gid = st.gid
    ∧ (∀ e ∈ (pausePushButtonPressed st env).2, ∀ g0,
         Effect.gidTarget e = some g0 → g0 = st.gid)
    ∧ (stopPushButtonPressed st env).1.gid = st.gid
    ∧ (∀ e ∈ (stopPushButtonPressed st env).2, ∀ g0,
         Effect.gidTarget e = some g0 → g0 = st.gid)
    ∧ (limitCheckBoxToggled st).1.gid = st.gid
    ∧ (∀ e ∈ (limitCheckBoxToggled st).2, ∀ g0,
         Effect.gidTarget e = some g0 → g0 = st.gid)
    ∧ (limitComboBoxChanged st).1.gid = st.gid
    ∧ (afterComboBoxChanged st).1.gid = st.gid
    ∧ (afterCheckBoxToggled st).1.gid = st.gid
    ∧ (∀ e ∈ (afterCheckBoxToggled st).2, ∀ g0,
         Effect.gidTarget e = some g0 → g0 = st.gid)
    ∧ (limitPushButtonPressed st).1.gid = st.gid
    ∧ (∀ e ∈ (limitPushButtonPressed st).2, ∀ g0,
         Effect.gidTarget e = some g0 → g0 = st.gid)
    ∧ (keyPressEvent st esc).1.gid = st.gid
    ∧ (closeEvent st).1.gid = st.gid
    ∧ (changeIcon st icons).1.gid = st.gid
    ∧ (∀ os out, afterPushButtonPressed os st env = some out →
         out.1.gid = st.gid
         ∧ ∀ e ∈ out.2, ∀ g0, Effect.gidTarget e = some g0 → g0 = st.gid) := by
  refine ⟨?_, ?_, ?_, ?_, ?_, ?_, ?_, ?_, ?_, ?_, ?_, ?_, ?_, ?_, ?_, ?_, ?_, ?_, ?_⟩
  · unfold ProgressWindow.init
    split_ifs <;> rfl
  · unfold resumePushButtonPressed
    split_ifs <;> rfl
  · unfold resumePushButtonPressed
    split_ifs <;> simp [Effect.gidTarget]
  · unfold pausePushButtonPressed
    split_ifs <;> rfl
  · unfold pausePushButtonPressed
    split_ifs <;> simp [Effect.gidTarget]
  · unfold stopPushButtonPressed
    split_ifs <;> rfl
  · unfold stopPushButtonPressed
    split_ifs <;> simp [Effect.gidTarget]
  · unfold limitCheckBoxToggled
    split_ifs <;> rfl
  · unfold limitCheckBoxToggled
    split_ifs <;> simp [Effect.gidTarget]
  · rfl
  · rfl
  · unfold afterCheckBoxToggled
    split_ifs <;> rfl
  · unfold afterCheckBoxToggled
    split_ifs <;> simp [Effect.gidTarget]
  · unfold limitPushButtonPressed
    split_ifs <;> rfl
  · unfold limitPushButtonPressed
    split_ifs <;> simp [Effect.gidTarget]
  · unfold keyPressEvent
    split_ifs <;> rfl
  · rfl
  · rfl
  · intro os out hout
    exact afterPushButtonPressed_gid os st env out hout

/-- C5 witness at a concrete state and environment. -/
theorem single_gid_invariant_witness :
    (ProgressWindow.init stA "g1" "500K").gid = "g1"
    ∧ (resumePushButtonPressed stA envA).1.gid = stA.gid
    ∧ (∀ e ∈ (resumePushButtonPressed stA envA).2, ∀ g0,
         Effect.gidTarget e = some g0 → g0 = stA.gid)
    ∧ (pausePushButtonPressed stA envA).1.gid = stA.gid
    ∧ (∀ e ∈ (pausePushButtonPressed stA envA).2, ∀ g0,
         Effect.gidTarget e = some g0 → g0 = stA.gid)
    ∧ (stopPushButtonPressed stA envA).1.gid = stA.gid
    ∧ (∀ e ∈ (stopPushButtonPressed stA envA).2, ∀ g0,
         Effect.gidTarget e = some g0 → g0 = stA.gid)
    ∧ (limitCheckBoxToggled stA).1.gid = stA.gid
    ∧ (∀ e ∈ (limitCheckBoxToggled stA).2, ∀ g0,
         Effect.gidTarget e = some g0 → g0 = stA.gid)
    ∧ (limitComboBoxChanged stA).1.gid = stA.gid
    ∧ (afterComboBoxChanged stA).1.gid = stA.gid
    ∧ (afterCheckBoxToggled stA).1.gid = stA.gid
    ∧ (∀ e ∈ (afterCheckBoxToggled stA).2, ∀ g0,
         Effect.gidTarget e = some g0 → g0 = stA.gid)
    ∧ (limitPushButtonPressed stA).1.gid = stA.gid
    ∧ (∀ e ∈ (limitPushButtonPressed stA).2, ∀ g0,
         Effect.gidTarget e = some g0 → g0 = stA.gid)
    ∧ (keyPressEvent stA true).1.gid = stA.gid
    ∧ (closeEvent stA).1.gid = stA.gid
    ∧ (changeIcon stA "papirus").1.gid = stA.gid
    ∧ (∀ os out, afterPushButtonPressed os stA envA = some out →
         out.1.gid = stA.gid
         ∧ ∀ e ∈ out.2, ∀ g0, Effect.gidTarget e = some g0 → g0 = stA.gid) :=
  single_gid_invariant stA stA envA "g1" "500K" "papirus" true
